import Mathlib

/-!
Shallow embedding of the loan-negotiation broker service
(src/broker/main.py together with src/broker/agent_credentials.py).

The broker is a FastAPI application with three protected endpoints
(submit_intent, submit_proposal, get_proposals), a token endpoint
(login_for_access_token), JWT-based authentication
(create_access_token / get_current_agent_id) and two in-memory
dictionaries (intents_db, proposals_db) as its whole state.

Python dictionaries are embedded as association lists with
last-write-wins assignment; the JWT library (PyJWT, HS256) is embedded
as an ideal signing scheme: a well-formed token determines the payload
it was signed over and the signing key, decoding succeeds exactly when
the key matches and the token is unexpired, and forging a signature is
impossible in the model.  Time is an abstract Nat measured in minutes.
Python floats are only ever stored and echoed back, never computed
with, so the float-typed fields are carried as rationals.
-/

/-- An HTTPException as raised by the handlers: status code and detail. -/
structure HTTPError where
  status_code : Nat
  detail : String
deriving DecidableEq

/-- agent_credentials.py, AGENT_CREDENTIALS: agent id mapped to its
client_secret and scope list. -/
def AGENT_CREDENTIALS : List (String × String × List String) :=
  [("consumer_agent_1", ("consumer_secret_1", ["consumer:write", "consumer:read"])),
   ("bank_agent_a", ("bank_secret_a", ["bank:write", "bank:read"])),
   ("bank_agent_b", ("bank_secret_b", ["bank:write", "bank:read"]))]

/-- agent_credentials.py, SCOPES_MAP: agent id mapped to its allowed scopes. -/
def SCOPES_MAP : List (String × List String) :=
  [("consumer_agent_1", ["consumer:write", "consumer:read"]),
   ("bank_agent_a", ["bank:write", "bank:read"]),
   ("bank_agent_b", ["bank:write", "bank:read"])]

/-- main.py line 28. -/
def SECRET_KEY : String := "your-super-secret-key"

/-- main.py line 30. -/
def ACCESS_TOKEN_EXPIRE_MINUTES : Nat := 30

/-- A decoded JWT payload carrying the claims the broker uses:
"sub" (may be missing), "scopes", and the "exp" timestamp. -/
structure TokenPayload where
  sub : Option String
  scopes : List String
  exp : Nat
deriving DecidableEq

/-- A bearer token as presented by a client: either a well-formed JWT
(the payload it was signed over, plus the key it was signed with), or
an arbitrary malformed string that no JWT decoder accepts. -/
inductive BearerToken where
  | signed (payload : TokenPayload) (key : String)
  | malformed (raw : String)
deriving DecidableEq

/-- main.py create_access_token: copy the data claims, add
exp = now + expires_delta (default 15 minutes), sign with SECRET_KEY. -/
def create_access_token (sub : Option String) (scopes : List String)
    (now : Nat) (expires_delta : Option Nat) : BearerToken :=
  .signed { sub := sub, scopes := scopes, exp := now + expires_delta.getD 15 } SECRET_KEY

/-- Ideal model of jwt.decode with HS256 and expiry verification:
returns the payload iff the token is well-formed, was signed with the
given key, and has not expired; otherwise fails (PyJWTError). -/
def jwt_decode (tok : BearerToken) (key : String) (now : Nat) : Option TokenPayload :=
  match tok with
  | .malformed _ => none
  | .signed p k => if k = key ∧ now < p.exp then some p else none

/-- main.py get_current_agent_id: decode the token; on any PyJWTError,
or when the "sub" claim is missing, raise 401 with the single detail
string "Invalid authentication credentials"; otherwise return the id. -/
def get_current_agent_id (tok : BearerToken) (now : Nat) : Except HTTPError String :=
  match jwt_decode tok SECRET_KEY now with
  | none => .error ⟨401, "Invalid authentication credentials"⟩
  | some payload =>
    match payload.sub with
    | none => .error ⟨401, "Invalid authentication credentials"⟩
    | some agent_id => .ok agent_id

/-- main.py login_for_access_token: check username/secret against
AGENT_CREDENTIALS; on mismatch raise 401; on success issue a token with
sub = agent id and scopes = SCOPES_MAP.get(agent_id, []), expiring in
ACCESS_TOKEN_EXPIRE_MINUTES. -/
def login_for_access_token (username password : String) (now : Nat) :
    Except HTTPError BearerToken :=
  match AGENT_CREDENTIALS.lookup username with
  | none => .error ⟨401, "Incorrect client ID or secret"⟩
  | some cred =>
    if cred.1 = password then
      .ok (create_access_token (some username) ((SCOPES_MAP.lookup username).getD [])
        now (some ACCESS_TOKEN_EXPIRE_MINUTES))
    else .error ⟨401, "Incorrect client ID or secret"⟩

/-- main.py Intent model. -/
structure Intent where
  transaction_id : String
  amount : Rat
  duration_months : Int
  credit_score : String
  client_id : String
deriving DecidableEq

/-- main.py Proposal model. -/
structure Proposal where
  transaction_id : String
  proposal_id : String
  bank_id : String
  offered_amount : Rat
  interest_rate : Rat
  terms : String
deriving DecidableEq

/-- Python dict assignment d[k] = v: last write wins; lookup is
List.lookup. -/
def dictSet (d : List (String × α)) (k : String) (v : α) : List (String × α) :=
  (k, v) :: d.filter (fun kv => kv.1 ≠ k)

/-- The broker's whole mutable state: intents_db and proposals_db
(main.py lines 16-17). -/
structure BrokerState where
  intents_db : List (String × Intent)
  proposals_db : List (String × List Proposal)
deriving DecidableEq

/-- Both dictionaries start empty. -/
def initState : BrokerState := ⟨[], []⟩

/-- Success body of submit_intent. -/
structure IntentAck where
  status : String
  transaction_id : String
deriving DecidableEq

/-- Success body of submit_proposal. -/
structure ProposalAck where
  status : String
  proposal_id : String
deriving DecidableEq

/-- main.py submit_intent handler body (after token verification):
scopes = scopes_map.get(agent_id, []) read from the module-level table
at request time; 403 if "consumer:write" is absent; otherwise overwrite
intents_db[tid] and reset proposals_db[tid] to []. The table is passed
as a parameter because the handler reads the mutable global at each
call. -/
def submit_intent (scopes_map : List (String × List String)) (intent : Intent)
    (agent_id : String) (st : BrokerState) : Except HTTPError (BrokerState × IntentAck) :=
  let scopes := (scopes_map.lookup agent_id).getD []
  if "consumer:write" ∉ scopes then
    .error ⟨403, "Not authorized to submit intents"⟩
  else
    .ok ({ intents_db := dictSet st.intents_db intent.transaction_id intent,
           proposals_db := dictSet st.proposals_db intent.transaction_id [] },
         ⟨"Intent received", intent.transaction_id⟩)

/-- main.py submit_proposal handler body: 403 without "bank:write";
404 if the transaction id is not a key of proposals_db; otherwise
append the proposal to that key's list and acknowledge with the
proposal id. -/
def submit_proposal (scopes_map : List (String × List String)) (proposal : Proposal)
    (agent_id : String) (st : BrokerState) : Except HTTPError (BrokerState × ProposalAck) :=
  let scopes := (scopes_map.lookup agent_id).getD []
  if "bank:write" ∉ scopes then
    .error ⟨403, "Not authorized to submit proposals"⟩
  else
    match st.proposals_db.lookup proposal.transaction_id with
    | none => .error ⟨404, "Transaction ID not found"⟩
    | some ps =>
      .ok ({ st with proposals_db :=
               dictSet st.proposals_db proposal.transaction_id (ps ++ [proposal]) },
           ⟨"Proposal received", proposal.proposal_id⟩)

/-- main.py get_proposals handler body: 403 without "consumer:read";
404 if the transaction id is not a key of proposals_db; otherwise
return the stored list unchanged. -/
def get_proposals (scopes_map : List (String × List String)) (transaction_id : String)
    (agent_id : String) (st : BrokerState) : Except HTTPError (List Proposal) :=
  let scopes := (scopes_map.lookup agent_id).getD []
  if "consumer:read" ∉ scopes then
    .error ⟨403, "Not authorized to read proposals"⟩
  else
    match st.proposals_db.lookup transaction_id with
    | none => .error ⟨404, "Transaction ID not found"⟩
    | some ps => .ok ps

/-- A full protected request: token verification via the dependency
get_current_agent_id, then the handler body. -/
def handle_submit_intent (scopes_map : List (String × List String)) (tok : BearerToken)
    (now : Nat) (intent : Intent) (st : BrokerState) :
    Except HTTPError (BrokerState × IntentAck) :=
  match get_current_agent_id tok now with
  | .error e => .error e
  | .ok agent_id => submit_intent scopes_map intent agent_id st

/-- Full submit_proposal request including token verification. -/
def handle_submit_proposal (scopes_map : List (String × List String)) (tok : BearerToken)
    (now : Nat) (proposal : Proposal) (st : BrokerState) :
    Except HTTPError (BrokerState × ProposalAck) :=
  match get_current_agent_id tok now with
  | .error e => .error e
  | .ok agent_id => submit_proposal scopes_map proposal agent_id st

/-- Full get_proposals request including token verification. -/
def handle_get_proposals (scopes_map : List (String × List String)) (tok : BearerToken)
    (now : Nat) (transaction_id : String) (st : BrokerState) :
    Except HTTPError (List Proposal) :=
  match get_current_agent_id tok now with
  | .error e => .error e
  | .ok agent_id => get_proposals scopes_map transaction_id agent_id st

/-- One broker operation, identified by the authenticated caller and
its request body. -/
inductive Op where
  | submitIntent (agent_id : String) (intent : Intent)
  | submitProposal (agent_id : String) (p : Proposal)
  | getProposals (agent_id : String) (transaction_id : String)
deriving DecidableEq

/-- State transition of one operation against the program's constant
SCOPES_MAP: a handler that raises leaves the state unchanged (every
raise in main.py happens before any mutation). -/
def step (st : BrokerState) : Op → BrokerState
  | .submitIntent a i =>
    match submit_intent SCOPES_MAP i a st with
    | .ok r => r.1
    | .error _ => st
  | .submitProposal a p =>
    match submit_proposal SCOPES_MAP p a st with
    | .ok r => r.1
    | .error _ => st
  | .getProposals _ _ => st

/-- The broker state after a sequence of operations from start-up. -/
def run (ops : List Op) : BrokerState := ops.foldl step initState

/-- Does an operation (re)submit an intent for this transaction id? -/
def isIntentFor (tid : String) : Op → Bool
  | .submitIntent _ i => tid = i.transaction_id
  | _ => false

/-- C9's invariant: intents_db and proposals_db always share exactly
the same keys. -/
def sameKeys (st : BrokerState) : Prop :=
  ∀ k, (st.intents_db.lookup k).isSome ↔ (st.proposals_db.lookup k).isSome

/-- Concrete intent used for witnesses and counterexamples, matching
the end-to-end scenario data. -/
def sampleIntent : Intent :=
  { transaction_id := "t1", amount := 5000, duration_months := 12,
    credit_score := "good", client_id := "consumer_agent_1" }

/-- Concrete proposal used for witnesses and counterexamples. -/
def sampleProposal : Proposal :=
  { transaction_id := "t1", proposal_id := "p1", bank_id := "bank_agent_a",
    offered_amount := 5000, interest_rate := 1 / 20, terms := "5% APR" }

/-- A token issued at time 0 for consumer_agent_1 with its scopes
frozen in, exactly as login_for_access_token issues it. -/
def consumerToken : BearerToken :=
  create_access_token (some "consumer_agent_1") ["consumer:write", "consumer:read"]
    0 (some ACCESS_TOKEN_EXPIRE_MINUTES)

/- ------------------------------------------------------------------
Theorems.
------------------------------------------------------------------ -/

theorem lookup_dictSet_self (d : List (String × α)) (k : String) (v : α) :
    (dictSet d k v).lookup k = some v := by
  simp [dictSet]

theorem lookup_filter_ne (d : List (String × α)) (k k' : String) (h : k' ≠ k) :
    (d.filter (fun kv => kv.1 ≠ k)).lookup k' = d.lookup k' := by
  induction d with
  | nil => rfl
  | cons a t ih =>
    obtain ⟨a1, a2⟩ := a
    simp only [decide_not] at ih ⊢
    by_cases hak : a1 = k
    · have hkk : (k' == a1) = false := by
        subst hak; simpa using h
      subst hak
      simp only [List.filter_cons]
      rw [if_neg (by simp)]
      rw [ih]
      simp [List.lookup, hkk]
    · have hb : (!decide (a1 = k)) = true := by simp [hak]
      simp only [List.filter_cons, hb, if_true]
      by_cases hk'a : k' = a1
      · subst hk'a
        simp [List.lookup]
      · have hkk : (k' == a1) = false := by simpa using hk'a
        simp [List.lookup, hkk, ih]

theorem lookup_dictSet_ne (d : List (String × α)) (k k' : String) (v : α) (h : k' ≠ k) :
    (dictSet d k v).lookup k' = d.lookup k' := by
  have hk : (k' == k) = false := by simpa using h
  show List.lookup k' ((k, v) :: d.filter (fun kv => kv.1 ≠ k)) = d.lookup k'
  simp only [List.lookup, hk]
  exact lookup_filter_ne d k k' h

/-- C3 counterexample: an authorized submit_intent whose transaction_id
is the empty string is not rejected — it succeeds and stores the intent
under the key "". -/
theorem submit_intent_accepts_empty_transaction_id :
    submit_intent SCOPES_MAP
      { transaction_id := "", amount := 5000, duration_months := 12,
        credit_score := "good", client_id := "consumer_agent_1" }
      "consumer_agent_1" initState =
      .ok (⟨[("", { transaction_id := "", amount := 5000, duration_months := 12,
                    credit_score := "good", client_id := "consumer_agent_1" })],
            [("", [])]⟩,
           ⟨"Intent received", ""⟩) := by
  rfl

/-- C3 (amended): submit_intent performs no well-formedness validation
of the transaction identifier; every authorized submission whose
transaction_id is the empty string succeeds and is stored under the
key "". -/
theorem submit_intent_no_wellformedness_check (agent : String) (intent : Intent)
    (st : BrokerState)
    (hs : "consumer:write" ∈ (SCOPES_MAP.lookup agent).getD [])
    (he : intent.transaction_id = "") :
    submit_intent SCOPES_MAP intent agent st =
      .ok (⟨dictSet st.intents_db "" intent, dictSet st.proposals_db "" []⟩,
           ⟨"Intent received", ""⟩) := by
  simp [submit_intent, hs, he]

/-- Witness for C3's amended theorem at a concrete input. -/
theorem submit_intent_no_wellformedness_check_witness :
    submit_intent SCOPES_MAP
      { transaction_id := "", amount := 5000, duration_months := 12,
        credit_score := "good", client_id := "consumer_agent_1" }
      "consumer_agent_1" initState =
      .ok (⟨dictSet initState.intents_db ""
              { transaction_id := "", amount := 5000, duration_months := 12,
                credit_score := "good", client_id := "consumer_agent_1" },
            dictSet initState.proposals_db "" []⟩,
           ⟨"Intent received", ""⟩) :=
  submit_intent_no_wellformedness_check "consumer_agent_1" _ initState (by decide) rfl

/-- C5: an authorized submit_intent whose transaction identifier
already keys a stored Intent succeeds, replaces the stored Intent for
that key with the newly submitted one, and resets that key's Proposal
Set to the empty sequence. -/
theorem submit_intent_overwrites_and_resets (agent : String) (intent : Intent)
    (st : BrokerState)
    (hs : "consumer:write" ∈ (SCOPES_MAP.lookup agent).getD [])
    (_hex : (st.intents_db.lookup intent.transaction_id).isSome = true) :
    ∃ st2, submit_intent SCOPES_MAP intent agent st =
        .ok (st2, ⟨"Intent received", intent.transaction_id⟩) ∧
      st2.intents_db.lookup intent.transaction_id = some intent ∧
      st2.proposals_db.lookup intent.transaction_id = some [] := by
  refine ⟨⟨dictSet st.intents_db intent.transaction_id intent,
           dictSet st.proposals_db intent.transaction_id []⟩, ?_,
    lookup_dictSet_self _ _ _, lookup_dictSet_self _ _ _⟩
  simp [submit_intent, hs]

/-- Witness for C5's theorem: resubmitting transaction id t1 over an
existing intent with one stored proposal. -/
theorem submit_intent_overwrites_and_resets_witness :
    ∃ st2, submit_intent SCOPES_MAP
        { transaction_id := "t1", amount := 9000, duration_months := 24,
          credit_score := "fair", client_id := "consumer_agent_1" }
        "consumer_agent_1" ⟨[("t1", sampleIntent)], [("t1", [sampleProposal])]⟩ =
        .ok (st2, ⟨"Intent received", "t1"⟩) ∧
      st2.intents_db.lookup "t1" =
        some { transaction_id := "t1", amount := 9000, duration_months := 24,
               credit_score := "fair", client_id := "consumer_agent_1" } ∧
      st2.proposals_db.lookup "t1" = some [] :=
  submit_intent_overwrites_and_resets "consumer_agent_1" _ _ (by decide) (by decide)

/-- C10: submit_proposal never rebinds bank_id to the caller: any
caller holding bank:write can submit a proposal carrying any bank_id
(including another agent's identity) against an existing transaction,
and the proposal is appended exactly as submitted. -/
theorem submit_proposal_stores_submitted_bank_id (agent : String) (p : Proposal)
    (st : BrokerState) (ps : List Proposal)
    (hs : "bank:write" ∈ (SCOPES_MAP.lookup agent).getD [])
    (hex : st.proposals_db.lookup p.transaction_id = some ps) :
    ∃ st2, submit_proposal SCOPES_MAP p agent st =
        .ok (st2, ⟨"Proposal received", p.proposal_id⟩) ∧
      st2.proposals_db.lookup p.transaction_id = some (ps ++ [p]) ∧
      (ps ++ [p]).getLast? = some p := by
  refine ⟨⟨st.intents_db, dictSet st.proposals_db p.transaction_id (ps ++ [p])⟩, ?_,
    lookup_dictSet_self _ _ _, by simp⟩
  simp [submit_proposal, hs, hex]

/-- Witness for C10's theorem: bank_agent_b submits a proposal whose
bank_id claims to be bank_agent_a; it is stored unchanged. -/
theorem submit_proposal_stores_submitted_bank_id_witness :
    ∃ st2, submit_proposal SCOPES_MAP sampleProposal "bank_agent_b"
        ⟨[("t1", sampleIntent)], [("t1", [])]⟩ =
        .ok (st2, ⟨"Proposal received", "p1"⟩) ∧
      st2.proposals_db.lookup "t1" = some ([] ++ [sampleProposal]) ∧
      ([] ++ [sampleProposal]).getLast? = some sampleProposal :=
  submit_proposal_stores_submitted_bank_id "bank_agent_b" sampleProposal
    ⟨[("t1", sampleIntent)], [("t1", [])]⟩ [] (by decide) (by decide)

/-- C1 counterexample: one fixed, valid token (issued for
consumer_agent_1, with the consumer scopes frozen into it) is
authorized under the deployed scope table but rejected with 403 after
the table's entry for consumer_agent_1 changes — the handlers re-read
the scope table on every request instead of using the token's frozen
scopes. -/
theorem same_token_different_outcome_under_table_change :
    get_current_agent_id consumerToken 1 = .ok "consumer_agent_1" ∧
    handle_submit_intent SCOPES_MAP consumerToken 1 sampleIntent initState =
      .ok (⟨[("t1", sampleIntent)], [("t1", [])]⟩, ⟨"Intent received", "t1"⟩) ∧
    handle_submit_intent [("consumer_agent_1", [])] consumerToken 1 sampleIntent initState =
      .error ⟨403, "Not authorized to submit intents"⟩ := by
  refine ⟨rfl, rfl, rfl⟩

/-- C1 (amended): the authorization decision of each protected
operation is a set-membership test against the scope list re-read from
the scope table at request time under the token's subject; for a
verified token, the request is rejected 403 exactly when the required
scope is absent from the table's current entry for the subject, so the
outcome tracks table changes rather than the scopes frozen into the
token. -/
theorem authorization_requeries_scope_table (table : List (String × List String))
    (tok : BearerToken) (now : Nat) (intent : Intent) (p : Proposal)
    (tid : String) (st : BrokerState) (a : String)
    (ha : get_current_agent_id tok now = .ok a) :
    (handle_submit_intent table tok now intent st =
        .error ⟨403, "Not authorized to submit intents"⟩ ↔
      "consumer:write" ∉ (table.lookup a).getD []) ∧
    (handle_submit_proposal table tok now p st =
        .error ⟨403, "Not authorized to submit proposals"⟩ ↔
      "bank:write" ∉ (table.lookup a).getD []) ∧
    (handle_get_proposals table tok now tid st =
        .error ⟨403, "Not authorized to read proposals"⟩ ↔
      "consumer:read" ∉ (table.lookup a).getD []) := by
  refine ⟨?_, ?_, ?_⟩
  · simp only [handle_submit_intent, ha, submit_intent]
    by_cases h : "consumer:write" ∈ (table.lookup a).getD []
    · simp [h]
    · simp [h]
  · simp only [handle_submit_proposal, ha, submit_proposal]
    by_cases h : "bank:write" ∈ (table.lookup a).getD []
    · simp only [h, not_true_eq_false, if_false, iff_false]
      cases hl : st.proposals_db.lookup p.transaction_id with
      | none => simp
      | some ps => simp
    · simp [h]
  · simp only [handle_get_proposals, ha, get_proposals]
    by_cases h : "consumer:read" ∈ (table.lookup a).getD []
    · simp only [h, not_true_eq_false, if_false, iff_false]
      cases hl : st.proposals_db.lookup tid with
      | none => simp
      | some ps => simp
    · simp [h]

/-- Witness for C1's amended theorem at the deployed table and a fresh
valid token. -/
theorem authorization_requeries_scope_table_witness :
    (handle_submit_intent SCOPES_MAP consumerToken 1 sampleIntent initState =
        .error ⟨403, "Not authorized to submit intents"⟩ ↔
      "consumer:write" ∉ (SCOPES_MAP.lookup "consumer_agent_1").getD []) ∧
    (handle_submit_proposal SCOPES_MAP consumerToken 1 sampleProposal initState =
        .error ⟨403, "Not authorized to submit proposals"⟩ ↔
      "bank:write" ∉ (SCOPES_MAP.lookup "consumer_agent_1").getD []) ∧
    (handle_get_proposals SCOPES_MAP consumerToken 1 "t1" initState =
        .error ⟨403, "Not authorized to read proposals"⟩ ↔
      "consumer:read" ∉ (SCOPES_MAP.lookup "consumer_agent_1").getD []) :=
  authorization_requeries_scope_table SCOPES_MAP consumerToken 1 sampleIntent
    sampleProposal "t1" initState "consumer_agent_1" rfl

/-- C4 counterexample: a malformed bearer token, an expired token, and
a token signed with the wrong key are all rejected with the identical
signal 401 "Invalid authentication credentials" — the verification
step does not distinguish absent/malformed from expired/invalid
signature. -/
theorem token_rejection_signals_coincide :
    get_current_agent_id (.malformed "not-a-jwt") 5 =
      .error ⟨401, "Invalid authentication credentials"⟩ ∧
    get_current_agent_id
      (.signed ⟨some "bank_agent_a", ["bank:write", "bank:read"], 3⟩ SECRET_KEY) 5 =
      .error ⟨401, "Invalid authentication credentials"⟩ ∧
    get_current_agent_id
      (.signed ⟨some "bank_agent_a", ["bank:write", "bank:read"], 100⟩ "wrong-key") 5 =
      .error ⟨401, "Invalid authentication credentials"⟩ := by
  refine ⟨rfl, rfl, rfl⟩

/-- C4 (amended): the token-verification step rejects every
unverifiable token — malformed, expired, invalidly signed, or lacking
a subject — with one uniform signal, 401 "Invalid authentication
credentials"; no rejection distinguishes the failure cases. -/
theorem token_rejection_uniform (tok : BearerToken) (now : Nat) (e : HTTPError)
    (h : get_current_agent_id tok now = .error e) :
    e = ⟨401, "Invalid authentication credentials"⟩ := by
  unfold get_current_agent_id at h
  split at h
  · injection h with h1
    exact h1.symm
  · split at h
    · injection h with h1
      exact h1.symm
    · exact absurd h (by simp)

/-- Witness for C4's amended theorem at a concrete malformed token. -/
theorem token_rejection_uniform_witness :
    (⟨401, "Invalid authentication credentials"⟩ : HTTPError) =
      ⟨401, "Invalid authentication credentials"⟩ :=
  token_rejection_uniform (.malformed "garbage") 0
    ⟨401, "Invalid authentication credentials"⟩ rfl

/-- C8: issuing a token for an identity present in the credential table
and verifying it round-trips: the decoded payload carries exactly that
subject and exactly the scope set encoded at issuance (the identity's
scope set), verification returns that identity, and the token never
verifies as any other identity. -/
theorem token_roundtrip (x secret : String) (s : List String) (now now2 : Nat)
    (hc : AGENT_CREDENTIALS.lookup x = some (secret, s))
    (h2 : now2 < now + ACCESS_TOKEN_EXPIRE_MINUTES) :
    ∃ tok, login_for_access_token x secret now = .ok tok ∧
      jwt_decode tok SECRET_KEY now2 =
        some ⟨some x, s, now + ACCESS_TOKEN_EXPIRE_MINUTES⟩ ∧
      get_current_agent_id tok now2 = .ok x ∧
      ∀ (y : String) (m : Nat), get_current_agent_id tok m = .ok y → y = x := by
  have hlk : (SCOPES_MAP.lookup x).getD [] = s := by
    by_cases hx1 : x = "consumer_agent_1"
    · subst hx1
      have he : AGENT_CREDENTIALS.lookup "consumer_agent_1" =
          some ("consumer_secret_1", ["consumer:write", "consumer:read"]) := rfl
      rw [he] at hc
      simp only [Option.some.injEq, Prod.mk.injEq] at hc
      rw [← hc.2]
      rfl
    · by_cases hx2 : x = "bank_agent_a"
      · subst hx2
        have he : AGENT_CREDENTIALS.lookup "bank_agent_a" =
            some ("bank_secret_a", ["bank:write", "bank:read"]) := rfl
        rw [he] at hc
        simp only [Option.some.injEq, Prod.mk.injEq] at hc
        rw [← hc.2]
        rfl
      · by_cases hx3 : x = "bank_agent_b"
        · subst hx3
          have he : AGENT_CREDENTIALS.lookup "bank_agent_b" =
              some ("bank_secret_b", ["bank:write", "bank:read"]) := rfl
          rw [he] at hc
          simp only [Option.some.injEq, Prod.mk.injEq] at hc
          rw [← hc.2]
          rfl
        · have b1 : (x == "consumer_agent_1") = false := by simpa using hx1
          have b2 : (x == "bank_agent_a") = false := by simpa using hx2
          have b3 : (x == "bank_agent_b") = false := by simpa using hx3
          simp [AGENT_CREDENTIALS, List.lookup, b1, b2, b3] at hc
  refine ⟨create_access_token (some x) ((SCOPES_MAP.lookup x).getD []) now
      (some ACCESS_TOKEN_EXPIRE_MINUTES), ?_, ?_, ?_, ?_⟩
  · simp [login_for_access_token, hc]
  · simp [create_access_token, jwt_decode, h2, hlk]
  · simp [get_current_agent_id, create_access_token, jwt_decode, h2]
  · intro y m hy
    by_cases hm : m < now + ACCESS_TOKEN_EXPIRE_MINUTES
    · have hv : get_current_agent_id (create_access_token (some x)
          ((SCOPES_MAP.lookup x).getD []) now (some ACCESS_TOKEN_EXPIRE_MINUTES)) m =
          .ok x := by
        simp [get_current_agent_id, create_access_token, jwt_decode, hm]
      rw [hv] at hy
      injection hy with h1
      exact h1.symm
    · have hv : get_current_agent_id (create_access_token (some x)
          ((SCOPES_MAP.lookup x).getD []) now (some ACCESS_TOKEN_EXPIRE_MINUTES)) m =
          .error ⟨401, "Invalid authentication credentials"⟩ := by
        simp [get_current_agent_id, create_access_token, jwt_decode, hm]
      rw [hv] at hy
      exact absurd hy (by simp)

/-- Witness for C8's theorem: bank_agent_a logs in at time 0 and the
token verifies at time 1. -/
theorem token_roundtrip_witness :
    ∃ tok, login_for_access_token "bank_agent_a" "bank_secret_a" 0 = .ok tok ∧
      jwt_decode tok SECRET_KEY 1 =
        some ⟨some "bank_agent_a", ["bank:write", "bank:read"],
              0 + ACCESS_TOKEN_EXPIRE_MINUTES⟩ ∧
      get_current_agent_id tok 1 = .ok "bank_agent_a" ∧
      ∀ (y : String) (m : Nat),
        get_current_agent_id tok m = .ok y → y = "bank_agent_a" :=
  token_roundtrip "bank_agent_a" "bank_secret_a" ["bank:write", "bank:read"] 0 1
    rfl (by decide)

theorem sameKeys_initState : sameKeys initState := by
  intro k
  simp [initState, List.lookup]

theorem step_preserves_sameKeys (st : BrokerState) (op : Op) (h : sameKeys st) :
    sameKeys (step st op) := by
  cases op with
  | submitIntent a i =>
    by_cases hs : "consumer:write" ∈ (SCOPES_MAP.lookup a).getD []
    · have hstep : step st (.submitIntent a i) =
          ⟨dictSet st.intents_db i.transaction_id i,
           dictSet st.proposals_db i.transaction_id []⟩ := by
        simp [step, submit_intent, hs]
      rw [hstep]
      intro k
      by_cases hk : k = i.transaction_id
      · subst hk
        simp [lookup_dictSet_self]
      · simp only [lookup_dictSet_ne _ _ _ _ hk]
        exact h k
    · have hstep : step st (.submitIntent a i) = st := by
        simp [step, submit_intent, hs]
      rw [hstep]
      exact h
  | submitProposal a p =>
    by_cases hs : "bank:write" ∈ (SCOPES_MAP.lookup a).getD []
    · cases hl : st.proposals_db.lookup p.transaction_id with
      | none =>
        have hstep : step st (.submitProposal a p) = st := by
          simp [step, submit_proposal, hs, hl]
        rw [hstep]
        exact h
      | some ps =>
        have hstep : step st (.submitProposal a p) =
            ⟨st.intents_db, dictSet st.proposals_db p.transaction_id (ps ++ [p])⟩ := by
          simp [step, submit_proposal, hs, hl]
        rw [hstep]
        intro k
        by_cases hk : k = p.transaction_id
        · subst hk
          simp only [lookup_dictSet_self, Option.isSome_some, iff_true]
          have hps : (st.proposals_db.lookup p.transaction_id).isSome = true := by
            rw [hl]
            rfl
          exact (h p.transaction_id).mpr hps
        · simp only [lookup_dictSet_ne _ _ _ _ hk]
          exact h k
    · have hstep : step st (.submitProposal a p) = st := by
        simp [step, submit_proposal, hs]
      rw [hstep]
      exact h
  | getProposals a tid =>
    exact h

theorem foldl_step_preserves_sameKeys (ops : List Op) :
    ∀ st, sameKeys st → sameKeys (ops.foldl step st) := by
  induction ops with
  | nil => exact fun st h => h
  | cons op t ih => exact fun st h => ih _ (step_preserves_sameKeys st op h)

theorem run_sameKeys (ops : List Op) : sameKeys (run ops) :=
  foldl_step_preserves_sameKeys ops initState sameKeys_initState

/-- C9: after any sequence of broker operations from the empty initial
state, intents_db and proposals_db key exactly the same transaction
identifiers, so the membership checks against proposals_db in
submit_proposal and get_proposals are equivalent to checking for a
stored Intent. -/
theorem intents_and_proposals_share_keys (ops : List Op) (k : String) :
    (((run ops).intents_db.lookup k).isSome) ↔
      (((run ops).proposals_db.lookup k).isSome) :=
  run_sameKeys ops k

/-- C2 counterexample: the Proposal Set for t1 is observed by
get_proposals as the one-element sequence [sampleProposal]; after a
later submit_intent for the same transaction identifier, a second
query observes the empty sequence — the earlier observation is not a
subset of the later one, so the Proposal Set is not append-only across
all broker operations. -/
theorem proposal_lost_after_intent_resubmission :
    get_proposals SCOPES_MAP "t1" "consumer_agent_1"
      (run [.submitIntent "consumer_agent_1" sampleIntent,
            .submitProposal "bank_agent_a" sampleProposal]) = .ok [sampleProposal] ∧
    get_proposals SCOPES_MAP "t1" "consumer_agent_1"
      (run [.submitIntent "consumer_agent_1" sampleIntent,
            .submitProposal "bank_agent_a" sampleProposal,
            .submitIntent "consumer_agent_1" sampleIntent]) = .ok [] ∧
    ¬ ([sampleProposal] : List Proposal) ⊆ ([] : List Proposal) := by
  refine ⟨rfl, rfl, ?_⟩
  intro hsub
  exact absurd (hsub (List.mem_singleton.mpr rfl)) (List.not_mem_nil _)

theorem step_extends_proposals (st : BrokerState) (op : Op) (tid : String)
    (ps : List Proposal) (hop : isIntentFor tid op = false)
    (h : st.proposals_db.lookup tid = some ps) :
    ∃ rest, (step st op).proposals_db.lookup tid = some (ps ++ rest) := by
  cases op with
  | submitIntent a i =>
    have hne : tid ≠ i.transaction_id := by
      simpa [isIntentFor] using hop
    by_cases hs : "consumer:write" ∈ (SCOPES_MAP.lookup a).getD []
    · refine ⟨[], ?_⟩
      have hstep : step st (.submitIntent a i) =
          ⟨dictSet st.intents_db i.transaction_id i,
           dictSet st.proposals_db i.transaction_id []⟩ := by
        simp [step, submit_intent, hs]
      rw [hstep]
      simp only [lookup_dictSet_ne _ _ _ _ hne]
      simpa using h
    · refine ⟨[], ?_⟩
      have hstep : step st (.submitIntent a i) = st := by
        simp [step, submit_intent, hs]
      rw [hstep]
      simpa using h
  | submitProposal a p =>
    by_cases hs : "bank:write" ∈ (SCOPES_MAP.lookup a).getD []
    · by_cases hk : p.transaction_id = tid
      · subst hk
        refine ⟨[p], ?_⟩
        have hstep : step st (.submitProposal a p) =
            ⟨st.intents_db, dictSet st.proposals_db p.transaction_id (ps ++ [p])⟩ := by
          simp [step, submit_proposal, hs, h]
        rw [hstep]
        simp [lookup_dictSet_self]
      · have hne : tid ≠ p.transaction_id := fun hh => hk hh.symm
        cases hl : st.proposals_db.lookup p.transaction_id with
        | none =>
          refine ⟨[], ?_⟩
          have hstep : step st (.submitProposal a p) = st := by
            simp [step, submit_proposal, hs, hl]
          rw [hstep]
          simpa using h
        | some qs =>
          refine ⟨[], ?_⟩
          have hstep : step st (.submitProposal a p) =
              ⟨st.intents_db, dictSet st.proposals_db p.transaction_id (qs ++ [p])⟩ := by
            simp [step, submit_proposal, hs, hl]
          rw [hstep]
          simp only [lookup_dictSet_ne _ _ _ _ hne]
          simpa using h
    · refine ⟨[], ?_⟩
      have hstep : step st (.submitProposal a p) = st := by
        simp [step, submit_proposal, hs]
      rw [hstep]
      simpa using h
  | getProposals a t =>
    exact ⟨[], by simpa [step] using h⟩

/-- C2 (amended): for a fixed transaction identifier, the Proposal Set
is append-only across every broker operation except a submit_intent for
that same identifier (which resets it): if the store holds proposal
sequence ps for the identifier and a sequence of operations containing
no submit_intent for that identifier runs, the store afterwards holds
ps extended by a (possibly empty) suffix, so the earlier observation is
a subset of the later one. -/
theorem proposal_set_append_only_between_intents (st : BrokerState) (ops : List Op)
    (tid : String) (ps : List Proposal)
    (hops : ∀ op ∈ ops, isIntentFor tid op = false)
    (h : st.proposals_db.lookup tid = some ps) :
    ∃ rest, (ops.foldl step st).proposals_db.lookup tid = some (ps ++ rest) := by
  induction ops generalizing st ps with
  | nil => exact ⟨[], by simpa using h⟩
  | cons op t ih =>
    obtain ⟨r1, h1⟩ := step_extends_proposals st op tid ps (hops op (by simp)) h
    obtain ⟨r2, h2⟩ :=
      ih (step st op) (ps ++ r1) (fun o ho => hops o (List.mem_cons_of_mem _ ho)) h1
    exact ⟨r1 ++ r2, by simpa [List.append_assoc] using h2⟩

/-- Witness for C2's amended theorem: from a state holding an empty
Proposal Set for t1, one bank submission extends it. -/
theorem proposal_set_append_only_between_intents_witness :
    ∃ rest, (([Op.submitProposal "bank_agent_a" sampleProposal]).foldl step
        ⟨[("t1", sampleIntent)], [("t1", [])]⟩).proposals_db.lookup "t1" =
      some ([] ++ rest) :=
  proposal_set_append_only_between_intents ⟨[("t1", sampleIntent)], [("t1", [])]⟩
    [Op.submitProposal "bank_agent_a" sampleProposal] "t1" []
    (by decide) (by decide)

/-- C6: for any reachable broker state and a caller holding bank:write,
submit_proposal rejects 404 exactly when no Intent is stored for the
referenced transaction identifier; when an Intent exists it succeeds,
appends the proposal to that transaction's Proposal Set, and
acknowledges with the submitted proposal identifier. -/
theorem submit_proposal_notfound_iff_no_intent (ops : List Op) (p : Proposal)
    (agent : String)
    (hs : "bank:write" ∈ (SCOPES_MAP.lookup agent).getD []) :
    (submit_proposal SCOPES_MAP p agent (run ops) =
        .error ⟨404, "Transaction ID not found"⟩ ↔
      (run ops).intents_db.lookup p.transaction_id = none) ∧
    (((run ops).intents_db.lookup p.transaction_id).isSome = true →
      ∃ ps, (run ops).proposals_db.lookup p.transaction_id = some ps ∧
        submit_proposal SCOPES_MAP p agent (run ops) =
          .ok (⟨(run ops).intents_db,
                dictSet (run ops).proposals_db p.transaction_id (ps ++ [p])⟩,
               ⟨"Proposal received", p.proposal_id⟩)) := by
  have hinv := run_sameKeys ops p.transaction_id
  constructor
  · cases hl : (run ops).proposals_db.lookup p.transaction_id with
    | none =>
      constructor
      · intro _
        rw [hl] at hinv
        cases hi : (run ops).intents_db.lookup p.transaction_id with
        | none => rfl
        | some intent =>
          rw [hi] at hinv
          simp at hinv
      · intro _
        simp [submit_proposal, hs, hl]
    | some ps =>
      constructor
      · intro habs
        have hok : submit_proposal SCOPES_MAP p agent (run ops) =
            .ok (⟨(run ops).intents_db,
                  dictSet (run ops).proposals_db p.transaction_id (ps ++ [p])⟩,
                 ⟨"Proposal received", p.proposal_id⟩) := by
          simp [submit_proposal, hs, hl]
        rw [hok] at habs
        exact absurd habs (by simp)
      · intro hi
        rw [hi, hl] at hinv
        simp at hinv
  · intro hi
    cases hl : (run ops).proposals_db.lookup p.transaction_id with
    | none =>
      rw [hl] at hinv
      exact absurd (hinv.mp hi) (by simp)
    | some ps =>
      exact ⟨ps, rfl, by simp [submit_proposal, hs, hl]⟩

/-- Witness for C6's theorem: after one submitted intent, bank_agent_a
submits a proposal for t1. -/
theorem submit_proposal_notfound_iff_no_intent_witness :
    (submit_proposal SCOPES_MAP sampleProposal "bank_agent_a"
        (run [.submitIntent "consumer_agent_1" sampleIntent]) =
        .error ⟨404, "Transaction ID not found"⟩ ↔
      (run [.submitIntent "consumer_agent_1" sampleIntent]).intents_db.lookup
        sampleProposal.transaction_id = none) ∧
    (((run [.submitIntent "consumer_agent_1" sampleIntent]).intents_db.lookup
        sampleProposal.transaction_id).isSome = true →
      ∃ ps, (run [.submitIntent "consumer_agent_1" sampleIntent]).proposals_db.lookup
          sampleProposal.transaction_id = some ps ∧
        submit_proposal SCOPES_MAP sampleProposal "bank_agent_a"
            (run [.submitIntent "consumer_agent_1" sampleIntent]) =
          .ok (⟨(run [.submitIntent "consumer_agent_1" sampleIntent]).intents_db,
                dictSet (run [.submitIntent "consumer_agent_1" sampleIntent]).proposals_db
                  sampleProposal.transaction_id (ps ++ [sampleProposal])⟩,
               ⟨"Proposal received", sampleProposal.proposal_id⟩)) :=
  submit_proposal_notfound_iff_no_intent
    [.submitIntent "consumer_agent_1" sampleIntent] sampleProposal "bank_agent_a"
    (by decide)

/-- C7: for any reachable broker state and a caller holding
consumer:read, get_proposals rejects 404 exactly when no Intent is
stored for the queried transaction identifier (never returning an
empty sequence in that case), and otherwise returns exactly the stored
Proposal Set, which may be the empty sequence. -/
theorem get_proposals_notfound_or_snapshot (ops : List Op) (tid agent : String)
    (hs : "consumer:read" ∈ (SCOPES_MAP.lookup agent).getD []) :
    (get_proposals SCOPES_MAP tid agent (run ops) =
        .error ⟨404, "Transaction ID not found"⟩ ↔
      (run ops).intents_db.lookup tid = none) ∧
    (((run ops).intents_db.lookup tid).isSome = true →
      ∃ ps, (run ops).proposals_db.lookup tid = some ps ∧
        get_proposals SCOPES_MAP tid agent (run ops) = .ok ps) := by
  have hinv := run_sameKeys ops tid
  constructor
  · cases hl : (run ops).proposals_db.lookup tid with
    | none =>
      constructor
      · intro _
        rw [hl] at hinv
        cases hi : (run ops).intents_db.lookup tid with
        | none => rfl
        | some intent =>
          rw [hi] at hinv
          simp at hinv
      · intro _
        simp [get_proposals, hs, hl]
    | some ps =>
      constructor
      · intro habs
        have hok : get_proposals SCOPES_MAP tid agent (run ops) = .ok ps := by
          simp [get_proposals, hs, hl]
        rw [hok] at habs
        exact absurd habs (by simp)
      · intro hi
        rw [hi, hl] at hinv
        simp at hinv
  · intro hi
    cases hl : (run ops).proposals_db.lookup tid with
    | none =>
      rw [hl] at hinv
      exact absurd (hinv.mp hi) (by simp)
    | some ps =>
      exact ⟨ps, rfl, by simp [get_proposals, hs, hl]⟩

/-- Witness for C7's theorem: the consumer queries t1 right after its
intent is stored; the bound never-submitted id t9 is rejected inside
the iff, and the snapshot branch returns the stored empty set. -/
theorem get_proposals_notfound_or_snapshot_witness :
    (get_proposals SCOPES_MAP "t1" "consumer_agent_1"
        (run [.submitIntent "consumer_agent_1" sampleIntent]) =
        .error ⟨404, "Transaction ID not found"⟩ ↔
      (run [.submitIntent "consumer_agent_1" sampleIntent]).intents_db.lookup "t1" =
        none) ∧
    (((run [.submitIntent "consumer_agent_1" sampleIntent]).intents_db.lookup
        "t1").isSome = true →
      ∃ ps, (run [.submitIntent "consumer_agent_1" sampleIntent]).proposals_db.lookup
          "t1" = some ps ∧
        get_proposals SCOPES_MAP "t1" "consumer_agent_1"
            (run [.submitIntent "consumer_agent_1" sampleIntent]) = .ok ps) :=
  get_proposals_notfound_or_snapshot [.submitIntent "consumer_agent_1" sampleIntent]
    "t1" "consumer_agent_1" (by decide)
